import Mathlib

/-!
Verification development for the bonghwa scraper repository.

The embedding covers the three source files:
  - bonghwa.py: token loading (load_cf_info), header/cookie construction
    (make_headers_and_cookies), block-page classification (is_block_page),
    and the fetch loop of main() with its single-refresh policy.
  - cf-clearance-scraper/main.py: clearance-cookie extraction, the
    challenge solve loop (solve_challenge), and the main control flow that
    writes the token file on success.

Machine strings are modelled as Lean String; Python str.lower is modelled
on the ASCII range via Char.toLower (all classifier keywords are ASCII).
JSON objects are modelled as association lists in declared key order,
matching Python dict insertion order.
-/

/-- Lowercasing of a string as a character list. Models Python str.lower
on the ASCII range, which covers every classifier keyword. -/
def lowerChars (s : String) : List Char :=
  s.toList.map Char.toLower

/-- Contiguous-substring test on character lists: does needle occur
contiguously inside hay. Models the Python expression needle in hay. -/
def containsChars (hay needle : List Char) : Bool :=
  match hay with
  | [] => needle.isEmpty
  | _ :: t => (List.isPrefixOf needle hay) || containsChars t needle

/-- Substring test on strings, Python needle in hay. -/
def containsSub (hay needle : String) : Bool :=
  containsChars hay.toList needle.toList

/-- The fixed challenge-page signature list of bonghwa.is_block_page
(bonghwa.py lines 75-82), already lowercase in the source. -/
def blockKeywords : List String :=
  ["attention required",
   "just a moment",
   "checking your browser",
   "please verify you are a human",
   "cf-error",
   "captcha"]

/-- bonghwa.is_block_page: lowercase the body and test whether any of the
fixed keywords occurs as a substring (bonghwa.py lines 72-83). -/
def is_block_page (text : String) : Bool :=
  blockKeywords.any (fun k => containsChars (lowerChars text) k.toList)

/-- An HTTP response as the orchestrator observes it: status code and
body text. -/
structure Response where
  status : Nat
  body : String
deriving DecidableEq

/-- The blocked classification of bonghwa.main (line 144):
status code not 200, or the body matches a challenge signature. -/
def blockedResp (r : Response) : Bool :=
  (r.status != 200) || is_block_page r.body

/-- A cookie record as stored in the token file (name and value; the
remaining JSON fields of a cookie are not consulted by any modelled code). -/
structure CfCookie where
  name : String
  value : String
deriving DecidableEq

/-- One snapshot entry of the token file. The solver writes the JSON keys
cookies, user_agent and expires; bonghwa.make_headers_and_cookies reads
the keys user_agent and cf_clearance with dict.get, so both are optional
here (cf_clearance is a distinct top-level key, absent from solver-written
entries, whose clearance value sits inside the cookies array instead). -/
structure CfEntry where
  cookies : List CfCookie
  user_agent : Option String
  cf_clearance : Option String
  expires : String
deriving DecidableEq

/-- The token file: a JSON mapping from domain-or-URL keys to ordered
snapshot arrays, in declared key order. -/
abbrev TokenFile := List (String × List CfEntry)

/-- Failure modes of bonghwa.load_cf_info: the file open or JSON parse
raises (fileError), or the selected key has no entries (the ValueError
raised at bonghwa.py line 50). -/
inductive LoadError
  | fileError
  | noEntries
deriving DecidableEq

/-- The key-selection step of bonghwa.load_cf_info (line 47): the first
key containing the preferred domain as a substring, otherwise the first
declared key, otherwise no entries. -/
def selectEntries (data : TokenFile) (prefer : String) : List CfEntry :=
  match data.find? (fun kv => containsSub kv.1 prefer) with
  | some kv => kv.2
  | none =>
    match data with
    | [] => []
    | kv :: _ => kv.2

/-- bonghwa.load_cf_info (lines 41-51): open and parse the file (absent or
unreadable file propagates an error), select the entries by the domain
rule, fail if they are empty, otherwise return the last entry. -/
def load_cf_info (file : Option TokenFile) (prefer : String) : Except LoadError CfEntry :=
  match file with
  | none => .error .fileError
  | some data =>
    match (selectEntries data prefer).getLast? with
    | none => .error .noEntries
    | some e => .ok e

/-- Module constant ROOT_URL of bonghwa.py (line 10). -/
def ROOT_URL : String := "https://www.bonghwa.co.kr/"

/-- The hardcoded fallback user agent of bonghwa.make_headers_and_cookies
(lines 55-59), used when the record carries no user_agent value. -/
def defaultUA : String :=
  "Mozilla/5.0 (Windows NT 10.0; Win64; x64) AppleWebKit/537.36 (KHTML, like Gecko) Chrome/141.0.0.0 Safari/537.36"

/-- The request headers built by bonghwa.make_headers_and_cookies. -/
structure ReqHeaders where
  userAgent : String
  acceptLanguage : String
  referer : String
deriving DecidableEq

/-- bonghwa.make_headers_and_cookies (lines 54-69): the user agent is the
record value unless missing or falsy (empty), in which case the hardcoded
default is used; a missing or falsy cf_clearance value raises ValueError;
otherwise headers and the single clearance cookie are returned together. -/
def make_headers_and_cookies (e : CfEntry) :
    Except String (ReqHeaders × List (String × String)) :=
  let ua := match e.user_agent with
    | some s => if s.isEmpty then defaultUA else s
    | none => defaultUA
  match e.cf_clearance with
  | none => .error "missing cf_clearance"
  | some t =>
    if t.isEmpty then .error "missing cf_clearance"
    else .ok (⟨ua, "zh-CN,zh;q=0.9", ROOT_URL⟩, [("cf_clearance", t)])

/-- The Cloudflare challenge platform kinds of cf-clearance-scraper
(main.py lines 44-49). -/
inductive ChallengePlatform
  | javascript
  | managed
  | interactive
deriving DecidableEq

/-- CloudflareSolver.extract_clearance_cookie (main.py lines 128-150):
the first cookie named cf_clearance, if any. -/
def extract_clearance_cookie (cookies : List CfCookie) : Option CfCookie :=
  cookies.find? (fun c => c.name == "cf_clearance")

/-- The fixed system-level click coordinates of the solve loop
(main.py line 250). -/
def interactionPoint : Nat × Nat := (532, 375)

/-- One synthetic interaction performed by the solve loop, tagged with
the whole second at which it was issued (each loop iteration sleeps
exactly one second). -/
structure ClickEvent where
  time : Nat
  pos : Nat × Nat
deriving DecidableEq

/-- How the solve loop stopped: the loop condition of main.py lines
243-247 fails when the clearance cookie is present, when no challenge is
detected on the page any more, or when the elapsed whole seconds reach
the timeout. -/
inductive SolveExit
  | cookieFound
  | challengeGone
  | timedOut
deriving DecidableEq

/-- CloudflareSolver.solve_challenge (main.py lines 239-263), with time in
whole seconds from the loop start. The environment oracles give, for each
second t, whether the clearance cookie is present and whether a challenge
is detected. Each iteration first re-evaluates the three-part loop
condition in source order (cookie absent, challenge present, elapsed
below timeout), then clicks the fixed point and sleeps one second; the
mid-loop cookie re-check after the sleep coincides with the cookie test
at the head of the next iteration and needs no separate state. Returns
the exit condition and the list of click events issued. -/
def solve_challenge (cookie challenge : Nat → Bool) (timeout t : Nat) :
    SolveExit × List ClickEvent :=
  if cookie t then (.cookieFound, [])
  else if challenge t = false then (.challengeGone, [])
  else if h : t < timeout then
    ((solve_challenge cookie challenge timeout (t + 1)).1,
      ⟨t, interactionPoint⟩ :: (solve_challenge cookie challenge timeout (t + 1)).2)
  else (.timedOut, [])
termination_by timeout - t
decreasing_by omega

/-- The environment one solver process invocation observes: whether
navigation timed out, the cookie set right after navigation, the detected
challenge platform, the cookie set after the solve loop returned, the
cookie set read back at capture time (main.py line 438), and the user
agent, expiry string and target URL used when assembling the output. -/
structure SolverEnv where
  navTimeout : Bool
  cookiesAfterNav : List CfCookie
  challenge : Option ChallengePlatform
  cookiesAfterSolve : List CfCookie
  captureCookies : List CfCookie
  userAgent : String
  expiresStr : String
  url : String

/-- The JSON document written by the solver on success (main.py lines
440-453): a single key, the target URL, mapped to two entries sharing the
same user agent and expiry string; the first carries only the clearance
cookie, the second the full cookie set read at capture time. Neither
entry has a top-level cf_clearance key. -/
def solverData (url : String) (clearance : CfCookie) (capture : List CfCookie)
    (ua expires : String) : TokenFile :=
  [(url, [⟨[clearance], some ua, none, expires⟩,
          ⟨capture, some ua, none, expires⟩])]

/-- The control flow of the solver process main (main.py lines 385-457)
from navigation onward, as a function from the observed environment and
the presence of a --file argument to the resulting token-file state and
the process exit status. Every path, including the three failure paths
(navigation timeout, no challenge detected, no clearance cookie after the
solve loop), ends in a plain return from main, so the process terminates
with exit status 0; the file write at lines 455-457 opens the path in
mode w, replacing any prior content with the fresh document. -/
def solverRun (env : SolverEnv) (hasFileArg : Bool) (prior : Option TokenFile) :
    Option TokenFile × Nat :=
  if env.navTimeout then (prior, 0)
  else
    let finish := fun (c : CfCookie) =>
      ((if hasFileArg then
          some (solverData env.url c env.captureCookies env.userAgent env.expiresStr)
        else prior), 0)
    match extract_clearance_cookie env.cookiesAfterNav with
    | some c => finish c
    | none =>
      match env.challenge with
      | none => (prior, 0)
      | some _ =>
        match extract_clearance_cookie env.cookiesAfterSolve with
        | none => (prior, 0)
        | some c => finish c

/-- The credentials the fetch loop carries: the headers and cookies pair
produced by make_headers_and_cookies from one token record. -/
abbrev Creds := ReqHeaders × List (String × String)

/-- One HTTP GET issued by bonghwa.fetch_page, recording the URL and the
headers and cookies attached to it. -/
structure FetchCall where
  url : String
  headers : ReqHeaders
  cookies : List (String × String)
deriving DecidableEq

/-- What one iteration of the fetch loop of bonghwa.main produced for its
task: the first response and its blocked classification (line 144),
whether this task triggered the single refresh, the fetch calls issued
(one, or two when the task was retried after the refresh), and the
response the task body went on to save and parse. -/
structure TaskRecord where
  url : String
  firstResp : Response
  firstBlocked : Bool
  refreshedHere : Bool
  calls : List FetchCall
  finalResp : Response
deriving DecidableEq

/-- One iteration of the fetch loop of bonghwa.main (lines 141-152).
respond gives the response the network returns for task index i on
attempt a; cred1 is the credentials pair obtained by the re-solve,
reload and make_headers_and_cookies chain of lines 147-149. If the first
response is classified blocked and the run has not refreshed yet, the
solver is invoked, both headers and cookies are swapped to cred1, the
refreshed flag is set, and the same task is fetched once more; the
retried response is used without being re-classified. Otherwise the first
response is used as is. -/
def orchStep (respond : Nat → Nat → Response) (cred1 : Creds)
    (i : Nat) (url : String) (refreshed : Bool) (cred : Creds) :
    Bool × Creds × TaskRecord :=
  let resp0 := respond i 0
  let call0 : FetchCall := ⟨url, cred.1, cred.2⟩
  let blocked := blockedResp resp0
  if blocked && !refreshed then
    let resp1 := respond i 1
    (true, cred1, ⟨url, resp0, blocked, true,
                   [call0, ⟨url, cred1.1, cred1.2⟩], resp1⟩)
  else
    (refreshed, cred, ⟨url, resp0, blocked, false, [call0], resp0⟩)

/-- The fetch loop of bonghwa.main over the ordered task list, threading
the refreshed flag (initially false, line 140) and the current
credentials pair through the tasks in input order. -/
def orchRun (respond : Nat → Nat → Response) (cred1 : Creds) :
    Nat → Bool → Creds → List String → List TaskRecord
  | _, _, _, [] => []
  | i, refreshed, cred, url :: rest =>
    let s := orchStep respond cred1 i url refreshed cred
    s.2.2 :: orchRun respond cred1 (i + 1) s.1 s.2.1 rest

/-- The fetch loop as the source parses: the try statement opened at
bonghwa.py line 142 has no except or finally clause, so the file is
rejected by the Python parser (SyntaxError at line 181) and, reading the
loop body without any handler, an exception raised by fetch_page (a
requests connection or timeout error) propagates out of the loop and
aborts the remaining tasks. respond yields either a response or the
raised transport error for the first fetch of task i. -/
def orchRunRaises (respond : Nat → Except Unit Response) :
    Nat → List String → Except Unit (List Response)
  | _, [] => .ok []
  | i, _ :: rest =>
    match respond i with
    | .error e => .error e
    | .ok r =>
      match orchRunRaises respond (i + 1) rest with
      | .error e => .error e
      | .ok rs => .ok (r :: rs)

lemma isPrefixOf_iff_exists (a b : List Char) :
    List.isPrefixOf a b = true ↔ ∃ t, a ++ t = b := by
  induction a generalizing b with
  | nil => simp [List.isPrefixOf]
  | cons x xs ih =>
    cases b with
    | nil => simp [List.isPrefixOf]
    | cons y ys =>
      simp only [List.isPrefixOf, Bool.and_eq_true, beq_iff_eq, ih, List.cons_append,
        List.cons.injEq]
      constructor
      · rintro ⟨h1, t, h2⟩
        exact ⟨t, h1, h2⟩
      · rintro ⟨t, h1, h2⟩
        exact ⟨h1, t, h2⟩

lemma containsChars_iff (hay needle : List Char) :
    containsChars hay needle = true ↔ ∃ s t, s ++ needle ++ t = hay := by
  induction hay with
  | nil =>
    constructor
    · intro h
      have hn : needle = [] := by
        simpa [containsChars, List.isEmpty_iff] using h
      exact ⟨[], [], by simp [hn]⟩
    · rintro ⟨s, t, h⟩
      simp only [List.append_eq_nil] at h
      simp [containsChars, List.isEmpty_iff, h.1.2]
  | cons x xs ih =>
    simp only [containsChars, Bool.or_eq_true, isPrefixOf_iff_exists, ih]
    constructor
    · rintro (⟨t, ht⟩ | ⟨s, t, hst⟩)
      · exact ⟨[], t, by simpa using ht⟩
      · exact ⟨x :: s, t, by simp [← hst]⟩
    · rintro ⟨s, t, hst⟩
      cases s with
      | nil => exact Or.inl ⟨t, by simpa using hst⟩
      | cons a as =>
        simp only [List.cons_append, List.cons.injEq] at hst
        exact Or.inr ⟨as, t, hst.2⟩

lemma is_block_page_iff (text : String) :
    is_block_page text = true ↔
      ∃ k ∈ blockKeywords, ∃ s t, s ++ k.toList ++ t = lowerChars text := by
  simp [is_block_page, List.any_eq_true, containsChars_iff]

lemma is_block_page_congr (a b : String) (h : lowerChars a = lowerChars b) :
    is_block_page a = is_block_page b := by
  simp [is_block_page, h]

lemma selectEntries_first_match (pre post : TokenFile) (kv : String × List CfEntry)
    (hint : String) (hmatch : containsSub kv.1 hint = true)
    (hpre : ∀ kv2 ∈ pre, containsSub kv2.1 hint = false) :
    selectEntries (pre ++ kv :: post) hint = kv.2 := by
  unfold selectEntries
  rw [List.find?_append]
  have h1 : pre.find? (fun kv2 => containsSub kv2.1 hint) = none := by
    rw [List.find?_eq_none]
    intro x hx
    simp [hpre x hx]
  have h2 : (kv :: post).find? (fun kv2 => containsSub kv2.1 hint) = some kv :=
    List.find?_cons_of_pos _ hmatch
  rw [h1, h2]
  rfl

lemma selectEntries_fallback (kv : String × List CfEntry) (rest : TokenFile)
    (hint : String)
    (hnone : ∀ kv2 ∈ kv :: rest, containsSub kv2.1 hint = false) :
    selectEntries (kv :: rest) hint = kv.2 := by
  unfold selectEntries
  have h1 : (kv :: rest).find? (fun kv2 => containsSub kv2.1 hint) = none := by
    rw [List.find?_eq_none]
    intro x hx
    simp [hnone x hx]
  rw [h1]

lemma selectEntries_cases (data : TokenFile) (hint : String) :
    selectEntries data hint = [] ∨ ∃ kv ∈ data, selectEntries data hint = kv.2 := by
  cases hf : data.find? (fun kv => containsSub kv.1 hint) with
  | some kv =>
    exact Or.inr ⟨kv, List.mem_of_find?_eq_some hf, by simp [selectEntries, hf]⟩
  | none =>
    cases data with
    | nil => exact Or.inl (by simp [selectEntries])
    | cons kv rest =>
      exact Or.inr ⟨kv, by simp, by simp [selectEntries, hf]⟩

lemma selectEntries_singleton (key : String) (es : List CfEntry) (hint : String) :
    selectEntries [(key, es)] hint = es := by
  cases hm : containsSub key hint with
  | true =>
    have hf : List.find? (fun kv => containsSub kv.1 hint) [(key, es)] = some (key, es) :=
      List.find?_cons_of_pos _ hm
    simp [selectEntries, hf]
  | false =>
    have hf : List.find? (fun kv => containsSub kv.1 hint) [(key, es)] = none := by
      rw [List.find?_eq_none]
      intro x hx
      simp only [List.mem_singleton] at hx
      subst hx
      simp [hm]
    simp [selectEntries, hf]

/-- Claim C5: for every well-formed token file and domain hint, load
selects the first key (in the declared key order of the file) containing
the hint as a substring, falls back to the first declared key when no key
contains the hint, and returns the last element of the selected array. -/
theorem claim5_load_selection :
    (∀ (pre post : TokenFile) (kv : String × List CfEntry) (hint : String),
      containsSub kv.1 hint = true →
      (∀ kv2 ∈ pre, containsSub kv2.1 hint = false) →
      ∀ hne : kv.2 ≠ [],
        load_cf_info (some (pre ++ kv :: post)) hint = .ok (kv.2.getLast hne))
    ∧ (∀ (kv : String × List CfEntry) (rest : TokenFile) (hint : String),
      (∀ kv2 ∈ kv :: rest, containsSub kv2.1 hint = false) →
      ∀ hne : kv.2 ≠ [],
        load_cf_info (some (kv :: rest)) hint = .ok (kv.2.getLast hne)) := by
  constructor
  · intro pre post kv hint hmatch hpre hne
    have hsel := selectEntries_first_match pre post kv hint hmatch hpre
    simp [load_cf_info, hsel, List.getLast?_eq_getLast _ hne]
  · intro kv rest hint hnone hne
    have hsel := selectEntries_fallback kv rest hint hnone
    simp [load_cf_info, hsel, List.getLast?_eq_getLast _ hne]

/-- Witness for claim C5: a concrete two-key file in which the second key
matches the hint, and a concrete file in which no key matches. -/
theorem claim5_load_selection_witness :
    load_cf_info (some [("other.example", [⟨[], some "UA-a", none, "e1"⟩]),
        ("https://www.bonghwa.co.kr/", [⟨[], some "UA-b", none, "e2"⟩,
          ⟨[], some "UA-c", none, "e3"⟩])]) "bonghwa.co.kr"
      = .ok ⟨[], some "UA-c", none, "e3"⟩
    ∧ load_cf_info (some [("first.example", [⟨[], some "UA-d", none, "e4"⟩]),
        ("second.example", [⟨[], some "UA-e", none, "e5"⟩])]) "bonghwa.co.kr"
      = .ok ⟨[], some "UA-d", none, "e4"⟩ := by
  constructor
  · exact claim5_load_selection.1 [("other.example", [⟨[], some "UA-a", none, "e1"⟩])] []
      ("https://www.bonghwa.co.kr/", [⟨[], some "UA-b", none, "e2"⟩,
        ⟨[], some "UA-c", none, "e3"⟩]) "bonghwa.co.kr" (by decide) (by decide) (by decide)
  · exact claim5_load_selection.2 ("first.example", [⟨[], some "UA-d", none, "e4"⟩])
      [("second.example", [⟨[], some "UA-e", none, "e5"⟩])] "bonghwa.co.kr"
      (by decide) (by decide)

/-- Claim C7: load fails with an error when the file is absent or
unreadable, when the file contains no key, or when the selected array is
empty; and whenever load succeeds, the returned record is the genuine
last element of an array present in the file, never a partial or default
record. -/
theorem claim7_load_failure :
    (∀ hint, load_cf_info none hint = .error .fileError)
    ∧ (∀ hint, load_cf_info (some []) hint = .error .noEntries)
    ∧ (∀ (data : TokenFile) (hint : String), selectEntries data hint = [] →
        load_cf_info (some data) hint = .error .noEntries)
    ∧ (∀ (data : TokenFile) (hint : String) (e : CfEntry),
        load_cf_info (some data) hint = .ok e →
        ∃ kv ∈ data, kv.2.getLast? = some e) := by
  refine ⟨fun hint => rfl, fun hint => rfl, ?_, ?_⟩
  · intro data hint hsel
    simp [load_cf_info, hsel]
  · intro data hint e h
    rcases selectEntries_cases data hint with hsel | ⟨kv, hkv, hsel⟩
    · simp [load_cf_info, hsel] at h
    · refine ⟨kv, hkv, ?_⟩
      rw [← hsel]
      simp only [load_cf_info] at h
      cases hlast : (selectEntries data hint).getLast? with
      | none => rw [hlast] at h; exact absurd h (by simp)
      | some e2 => rw [hlast] at h; simp at h; rw [h]

/-- Witness for claim C7: the empty-mapping case and the empty-array case
at concrete inputs, and a successful load traced back to its file entry. -/
theorem claim7_load_failure_witness :
    load_cf_info (some [("www.bonghwa.co.kr", [])]) "bonghwa.co.kr"
      = .error .noEntries
    ∧ ∃ kv ∈ ([("www.bonghwa.co.kr", [⟨[], some "UA", none, "e"⟩])] : TokenFile),
        kv.2.getLast? = some ⟨[], some "UA", none, "e"⟩ := by
  constructor
  · exact claim7_load_failure.2.2.1 [("www.bonghwa.co.kr", [])] "bonghwa.co.kr" (by decide)
  · exact claim7_load_failure.2.2.2 [("www.bonghwa.co.kr", [⟨[], some "UA", none, "e"⟩])]
      "bonghwa.co.kr" ⟨[], some "UA", none, "e"⟩ rfl

/-- Claim C6: the orchestrator classifies a response as blocked exactly
when the status code differs from 200 or the lowercased body contains one
of the fixed challenge-signature phrases; each signature phrase is
matched case-insensitively (classification depends only on the lowercased
body, and each phrase is recognized in upper case); and a body whose only
challenge-vendor-related content is the CDN hostname
cdnjs.cloudflare.com is not classified as blocked. -/
theorem claim6_blocked_classifier :
    (∀ r : Response, blockedResp r = true ↔
      (r.status ≠ 200 ∨ ∃ k ∈ blockKeywords, ∃ s t, s ++ k.toList ++ t = lowerChars r.body))
    ∧ (∀ a b : String, lowerChars a = lowerChars b → is_block_page a = is_block_page b)
    ∧ is_block_page "ATTENTION REQUIRED! | Cloudflare" = true
    ∧ is_block_page "JUST A MOMENT..." = true
    ∧ is_block_page "CHECKING YOUR BROWSER before accessing" = true
    ∧ is_block_page "PLEASE VERIFY YOU ARE A HUMAN" = true
    ∧ is_block_page "CF-ERROR details" = true
    ∧ is_block_page "complete the CAPTCHA to continue" = true
    ∧ blockedResp ⟨200,
        "<script src=\"https://cdnjs.cloudflare.com/ajax/libs/jquery/3.6.0/jquery.min.js\"></script>"⟩
      = false := by
  refine ⟨?_, is_block_page_congr, by decide, by decide, by decide, by decide, by decide,
    by decide, by decide⟩
  intro r
  rw [blockedResp, Bool.or_eq_true, ← is_block_page_iff]
  simp [bne_iff_ne]

/-- Witness for claim C6: two concrete mixed-case bodies with equal
lowercasings classify identically, and the if-and-only-if direction is
applied at a concrete non-200 response. -/
theorem claim6_blocked_classifier_witness :
    is_block_page "CaPtChA required" = is_block_page "cApTcHa REQUIRED"
    ∧ blockedResp ⟨503, "service unavailable"⟩ = true := by
  constructor
  · exact claim6_blocked_classifier.2.1 "CaPtChA required" "cApTcHa REQUIRED" (by decide)
  · exact (claim6_blocked_classifier.1 ⟨503, "service unavailable"⟩).mpr (Or.inl (by decide))

/-- Claim C3 (code evidence): at the failing inputs, the solver leaves
the token file untouched but terminates with completion status 0, not a
non-zero status. The first conjunct runs the solver in an environment
where a managed challenge is detected and the solve loop ends without the
clearance cookie (the timeout failure); the second in an environment
where no challenge is detected after navigation; the third is the
navigation-timeout failure. In every case the prior file state is
returned unchanged together with exit status 0, so the subprocess wrapper
run_cf_clearance_scraper (bonghwa.py line 38, check=True) observes a
successful status. -/
theorem claim3_failure_exit_status :
    (solverRun ⟨false, [], some .managed, [], [], "UA", "exp", "https://www.bonghwa.co.kr/"⟩
        true (some [("k", [⟨[⟨"cf_clearance", "OLD"⟩], some "UA-old", none, "old"⟩])])
      = (some [("k", [⟨[⟨"cf_clearance", "OLD"⟩], some "UA-old", none, "old"⟩])], 0))
    ∧ (solverRun ⟨false, [], none, [], [], "UA", "exp", "https://www.bonghwa.co.kr/"⟩
        true (some [("k", [⟨[⟨"cf_clearance", "OLD"⟩], some "UA-old", none, "old"⟩])])
      = (some [("k", [⟨[⟨"cf_clearance", "OLD"⟩], some "UA-old", none, "old"⟩])], 0))
    ∧ (solverRun ⟨true, [], some .managed, [], [], "UA", "exp", "https://www.bonghwa.co.kr/"⟩
        true (some [("k", [⟨[⟨"cf_clearance", "OLD"⟩], some "UA-old", none, "old"⟩])])
      = (some [("k", [⟨[⟨"cf_clearance", "OLD"⟩], some "UA-old", none, "old"⟩])], 0)) :=
  ⟨rfl, rfl, rfl⟩

/-- Counterexample for claim C2: a successful solver invocation over an
existing token file does not preserve the prior snapshots. The prior file
holds one old snapshot under the target key; after the solve the written
file no longer contains that snapshot under any key, because the write
opens the path in mode w and replaces the whole document. -/
theorem claim2_counterexample :
    (solverRun ⟨false, [⟨"cf_clearance", "NEW"⟩], none, [],
        [⟨"cf_clearance", "NEW"⟩, ⟨"other", "W"⟩], "UA-new", "soon",
        "https://www.bonghwa.co.kr/"⟩ true
        (some [("https://www.bonghwa.co.kr/",
          [⟨[⟨"cf_clearance", "OLD"⟩], some "UA-old", none, "old"⟩])])).2 = 0
    ∧ ∀ kv ∈ ((solverRun ⟨false, [⟨"cf_clearance", "NEW"⟩], none, [],
        [⟨"cf_clearance", "NEW"⟩, ⟨"other", "W"⟩], "UA-new", "soon",
        "https://www.bonghwa.co.kr/"⟩ true
        (some [("https://www.bonghwa.co.kr/",
          [⟨[⟨"cf_clearance", "OLD"⟩], some "UA-old", none, "old"⟩])])).1.getD []),
        (⟨[⟨"cf_clearance", "OLD"⟩], some "UA-old", none, "old"⟩ : CfEntry) ∉ kv.2 := by
  exact ⟨rfl, by decide⟩

/-- Claim C2 as amended: after a solver invocation persists a new
snapshot, reloading yields the full-cookie-set snapshot of that solve as
the most recent entry for its key; however the write replaces the whole
file, so the resulting file is the fresh two-entry document regardless of
the prior file content, and snapshots present before the write are
discarded rather than kept. -/
theorem claim2_amended (prior : Option TokenFile) (env : SolverEnv) (c : CfCookie)
    (hnav : env.navTimeout = false)
    (hcookie : extract_clearance_cookie env.cookiesAfterNav = some c) :
    solverRun env true prior
      = (some (solverData env.url c env.captureCookies env.userAgent env.expiresStr), 0)
    ∧ ∀ hint, load_cf_info (solverRun env true prior).1 hint
        = .ok ⟨env.captureCookies, some env.userAgent, none, env.expiresStr⟩ := by
  have hrun : solverRun env true prior
      = (some (solverData env.url c env.captureCookies env.userAgent env.expiresStr), 0) := by
    simp [solverRun, hnav, hcookie]
  refine ⟨hrun, fun hint => ?_⟩
  rw [hrun]
  have hsel : selectEntries (solverData env.url c env.captureCookies env.userAgent
      env.expiresStr) hint
      = [⟨[c], some env.userAgent, none, env.expiresStr⟩,
         ⟨env.captureCookies, some env.userAgent, none, env.expiresStr⟩] :=
    selectEntries_singleton env.url _ hint
  simp [load_cf_info, hsel]

/-- Witness for claim C2 as amended: the round trip at a concrete
environment and prior file. -/
theorem claim2_amended_witness :
    solverRun ⟨false, [⟨"cf_clearance", "NEW"⟩], none, [],
        [⟨"cf_clearance", "NEW"⟩, ⟨"sid", "W"⟩], "UA-new", "soon",
        "https://www.bonghwa.co.kr/"⟩ true
        (some [("https://www.bonghwa.co.kr/",
          [⟨[⟨"cf_clearance", "OLD"⟩], some "UA-old", none, "old"⟩])])
      = (some (solverData "https://www.bonghwa.co.kr/" ⟨"cf_clearance", "NEW"⟩
          [⟨"cf_clearance", "NEW"⟩, ⟨"sid", "W"⟩] "UA-new" "soon"), 0) :=
  (claim2_amended
    (some [("https://www.bonghwa.co.kr/",
      [⟨[⟨"cf_clearance", "OLD"⟩], some "UA-old", none, "old"⟩])])
    ⟨false, [⟨"cf_clearance", "NEW"⟩], none, [],
      [⟨"cf_clearance", "NEW"⟩, ⟨"sid", "W"⟩], "UA-new", "soon",
      "https://www.bonghwa.co.kr/"⟩
    ⟨"cf_clearance", "NEW"⟩ rfl rfl).1

/-- Claim C10: a successful solver invocation writes a file with exactly
one key, the target URL, holding exactly two entries of that solve: the
first entry carries only the clearance cookie, the second the full cookie
set read at capture time; the two entries share the same user agent and
the same expiry string; and loading that file with any domain hint
returns the second, full-cookie-set entry as the most recent one. -/
theorem claim10_solver_output (url : String) (c : CfCookie) (cap : List CfCookie)
    (ua exp hint : String) :
    (solverData url c cap ua exp).length = 1
    ∧ (∀ kv ∈ solverData url c cap ua exp, kv.1 = url ∧ kv.2.length = 2)
    ∧ (∀ kv ∈ solverData url c cap ua exp, ∀ hne : kv.2 ≠ [],
        (kv.2.head hne).cookies = [c]
        ∧ (kv.2.getLast hne).cookies = cap
        ∧ (kv.2.head hne).user_agent = (kv.2.getLast hne).user_agent
        ∧ (kv.2.head hne).expires = (kv.2.getLast hne).expires)
    ∧ load_cf_info (some (solverData url c cap ua exp)) hint
        = .ok ⟨cap, some ua, none, exp⟩ := by
  refine ⟨rfl, ?_, ?_, ?_⟩
  · intro kv hkv
    simp only [solverData, List.mem_singleton] at hkv
    simp [hkv]
  · intro kv hkv hne
    simp only [solverData, List.mem_singleton] at hkv
    subst hkv
    exact ⟨rfl, rfl, rfl, rfl⟩
  · have hsel : selectEntries (solverData url c cap ua exp) hint
        = [⟨[c], some ua, none, exp⟩, ⟨cap, some ua, none, exp⟩] :=
      selectEntries_singleton url _ hint
    simp [load_cf_info, hsel]

/-- Witness for claim C10 at a concrete solve. -/
theorem claim10_solver_output_witness :
    load_cf_info (some (solverData "https://www.bonghwa.co.kr/" ⟨"cf_clearance", "V"⟩
        [⟨"cf_clearance", "V"⟩, ⟨"sid", "W"⟩] "UA" "2 hours")) "bonghwa.co.kr"
      = .ok ⟨[⟨"cf_clearance", "V"⟩, ⟨"sid", "W"⟩], some "UA", none, "2 hours"⟩
    ∧ ∀ kv ∈ solverData "https://www.bonghwa.co.kr/" ⟨"cf_clearance", "V"⟩
        [⟨"cf_clearance", "V"⟩, ⟨"sid", "W"⟩] "UA" "2 hours",
        kv.1 = "https://www.bonghwa.co.kr/" ∧ kv.2.length = 2 :=
  ⟨(claim10_solver_output "https://www.bonghwa.co.kr/" ⟨"cf_clearance", "V"⟩
      [⟨"cf_clearance", "V"⟩, ⟨"sid", "W"⟩] "UA" "2 hours" "bonghwa.co.kr").2.2.2,
   (claim10_solver_output "https://www.bonghwa.co.kr/" ⟨"cf_clearance", "V"⟩
      [⟨"cf_clearance", "V"⟩, ⟨"sid", "W"⟩] "UA" "2 hours" "bonghwa.co.kr").2.1⟩

lemma solve_challenge_spec (cookie challenge : Nat → Bool) (timeout : Nat) :
    ∀ n t, timeout - t ≤ n →
      (∀ ev ∈ (solve_challenge cookie challenge timeout t).2,
          ev.pos = interactionPoint ∧ t ≤ ev.time ∧ ev.time < timeout
          ∧ cookie ev.time = false ∧ challenge ev.time = true)
      ∧ (solve_challenge cookie challenge timeout t).2.map (fun ev => ev.time)
          = List.range' t (solve_challenge cookie challenge timeout t).2.length
      ∧ ((solve_challenge cookie challenge timeout t).1 = SolveExit.cookieFound →
          cookie (t + (solve_challenge cookie challenge timeout t).2.length) = true)
      ∧ ((solve_challenge cookie challenge timeout t).1 = SolveExit.challengeGone →
          cookie (t + (solve_challenge cookie challenge timeout t).2.length) = false
          ∧ challenge (t + (solve_challenge cookie challenge timeout t).2.length) = false)
      ∧ ((solve_challenge cookie challenge timeout t).1 = SolveExit.timedOut →
          cookie (t + (solve_challenge cookie challenge timeout t).2.length) = false
          ∧ challenge (t + (solve_challenge cookie challenge timeout t).2.length) = true
          ∧ timeout ≤ t + (solve_challenge cookie challenge timeout t).2.length) := by
  intro n
  induction n with
  | zero =>
    intro t ht
    rw [solve_challenge]
    split_ifs with h1 h2 h3
    · exact ⟨by simp, by simp, fun _ => by simpa using h1,
        fun h => by simp at h, fun h => by simp at h⟩
    · exact ⟨by simp, by simp, fun h => by simp at h,
        fun _ => ⟨by simpa using h1, by simpa using h2⟩, fun h => by simp at h⟩
    · exact absurd h3 (by omega)
    · exact ⟨by simp, by simp, fun h => by simp at h, fun h => by simp at h,
        fun _ => ⟨by simpa using h1, by simpa using h2, by omega⟩⟩
  | succ n ih =>
    intro t ht
    rw [solve_challenge]
    split_ifs with h1 h2 h3
    · exact ⟨by simp, by simp, fun _ => by simpa using h1,
        fun h => by simp at h, fun h => by simp at h⟩
    · exact ⟨by simp, by simp, fun h => by simp at h,
        fun _ => ⟨by simpa using h1, by simpa using h2⟩, fun h => by simp at h⟩
    · obtain ⟨ihmem, ihmap, ihcf, ihcg, ihto⟩ := ih (t + 1) (by omega)
      have hlen : ∀ m : Nat, t + (m + 1) = (t + 1) + m := by omega
      refine ⟨?_, ?_, ?_, ?_, ?_⟩
      · intro ev hev
        rcases List.mem_cons.mp hev with hev0 | hev1
        · subst hev0
          exact ⟨rfl, Nat.le_refl t, h3, by simpa using h1, by simpa using h2⟩
        · obtain ⟨hp, hle, hlt, hc, hch⟩ := ihmem ev hev1
          exact ⟨hp, by omega, hlt, hc, hch⟩
      · simp only [List.map_cons, List.length_cons, List.range'_succ, ihmap]
      · intro h
        simp only [List.length_cons]
        rw [hlen]
        exact ihcf h
      · intro h
        simp only [List.length_cons]
        rw [hlen]
        exact ihcg h
      · intro h
        simp only [List.length_cons]
        rw [hlen]
        exact ihto h
    · exact ⟨by simp, by simp, fun h => by simp at h, fun h => by simp at h,
        fun _ => ⟨by simpa using h1, by simpa using h2, by omega⟩⟩

/-- Counterexample for claim C9: the solve loop does not terminate only
when the cookie appears or the timeout expires; it also terminates as
soon as no challenge is detected on the page any more. In this concrete
run the cookie never appears, the timeout is 10 seconds, and the
challenge disappears after the first iteration: the loop performs one
interaction and then stops after one elapsed second, with an exit that is
neither the cookie appearing nor the timeout expiring. -/
theorem claim9_counterexample :
    solve_challenge (fun _ => false) (fun t => t == 0) 10 0
      = (SolveExit.challengeGone, [⟨0, interactionPoint⟩])
    ∧ SolveExit.challengeGone ≠ SolveExit.cookieFound
    ∧ SolveExit.challengeGone ≠ SolveExit.timedOut
    ∧ ([(⟨0, interactionPoint⟩ : ClickEvent)].length < 10) := by
  refine ⟨?_, by decide, by decide, by norm_num⟩
  simp [solve_challenge]

/-- Claim C9 as amended: the solve loop performs one synthetic
interaction at the fixed viewport point per one-second tick, re-checking
the cookie before each further interaction; every interaction happens
strictly before the timeout expires, while the cookie is absent and a
challenge is still detected (hence none at or after expiry); and it
terminates exactly when the cookie appears (cookie found), when no
challenge is detected any more (challenge gone), or when the elapsed
seconds reach the caller-supplied timeout (timed out). -/
theorem claim9_solve_loop (cookie challenge : Nat → Bool) (timeout : Nat) :
    (∀ ev ∈ (solve_challenge cookie challenge timeout 0).2,
        ev.pos = interactionPoint ∧ ev.time < timeout
        ∧ cookie ev.time = false ∧ challenge ev.time = true)
    ∧ (solve_challenge cookie challenge timeout 0).2.map (fun ev => ev.time)
        = List.range' 0 (solve_challenge cookie challenge timeout 0).2.length
    ∧ ((solve_challenge cookie challenge timeout 0).1 = SolveExit.cookieFound →
        cookie (solve_challenge cookie challenge timeout 0).2.length = true)
    ∧ ((solve_challenge cookie challenge timeout 0).1 = SolveExit.challengeGone →
        cookie (solve_challenge cookie challenge timeout 0).2.length = false
        ∧ challenge (solve_challenge cookie challenge timeout 0).2.length = false)
    ∧ ((solve_challenge cookie challenge timeout 0).1 = SolveExit.timedOut →
        cookie (solve_challenge cookie challenge timeout 0).2.length = false
        ∧ challenge (solve_challenge cookie challenge timeout 0).2.length = true
        ∧ timeout ≤ (solve_challenge cookie challenge timeout 0).2.length) := by
  obtain ⟨hmem, hmap, hcf, hcg, hto⟩ :=
    solve_challenge_spec cookie challenge timeout timeout 0 (by omega)
  refine ⟨fun ev hev => ?_, hmap, fun h => by simpa using hcf h,
    fun h => by simpa using hcg h, fun h => by simpa using hto h⟩
  obtain ⟨hp, _, hlt, hc, hch⟩ := hmem ev hev
  exact ⟨hp, hlt, hc, hch⟩

/-- Witness for claim C9 as amended: a run in which the cookie appears
after two seconds; the loop stops with the cookie-found exit after two
interactions, and the cookie oracle indeed holds at the exit time. -/
theorem claim9_solve_loop_witness :
    (fun t => decide (2 ≤ t))
      ((solve_challenge (fun t => decide (2 ≤ t)) (fun _ => true) 30 0).2.length) = true := by
  apply (claim9_solve_loop (fun t => decide (2 ≤ t)) (fun _ => true) 30).2.2.1
  simp [solve_challenge]

lemma orchRun_cons_blocked (respond : Nat → Nat → Response) (cred1 : Creds)
    (i : Nat) (url : String) (r : Bool) (c : Creds) (rest : List String)
    (hbr : (blockedResp (respond i 0) && !r) = true) :
    orchRun respond cred1 i r c (url :: rest)
      = ⟨url, respond i 0, blockedResp (respond i 0), true,
          [⟨url, c.1, c.2⟩, ⟨url, cred1.1, cred1.2⟩], respond i 1⟩
        :: orchRun respond cred1 (i + 1) true cred1 rest := by
  simp [orchRun, orchStep, hbr]

lemma orchRun_cons_pass (respond : Nat → Nat → Response) (cred1 : Creds)
    (i : Nat) (url : String) (r : Bool) (c : Creds) (rest : List String)
    (hbr : (blockedResp (respond i 0) && !r) = false) :
    orchRun respond cred1 i r c (url :: rest)
      = ⟨url, respond i 0, blockedResp (respond i 0), false,
          [⟨url, c.1, c.2⟩], respond i 0⟩
        :: orchRun respond cred1 (i + 1) r c rest := by
  simp [orchRun, orchStep, hbr]

lemma orchRun_rec_shape (respond : Nat → Nat → Response) (cred1 : Creds) :
    ∀ (urls : List String) (i : Nat) (r : Bool) (c : Creds),
      ∀ rec ∈ orchRun respond cred1 i r c urls,
        (rec.refreshedHere = true → rec.calls.length = 2)
        ∧ (rec.refreshedHere = false →
            rec.calls.length = 1 ∧ rec.finalResp = rec.firstResp) := by
  intro urls
  induction urls with
  | nil => intro i r c rec h; simp [orchRun] at h
  | cons url rest ih =>
    intro i r c rec h
    by_cases hbr : (blockedResp (respond i 0) && !r) = true
    · rw [orchRun_cons_blocked respond cred1 i url r c rest hbr] at h
      rcases List.mem_cons.mp h with h0 | h1
      · subst h0
        exact ⟨fun _ => rfl, fun hfalse => by simp at hfalse⟩
      · exact ih (i + 1) true cred1 rec h1
    · rw [Bool.not_eq_true] at hbr
      rw [orchRun_cons_pass respond cred1 i url r c rest hbr] at h
      rcases List.mem_cons.mp h with h0 | h1
      · subst h0
        exact ⟨fun htrue => by simp at htrue, fun _ => ⟨rfl, rfl⟩⟩
      · exact ih (i + 1) r c rec h1

lemma orchRun_countP_refreshed (respond : Nat → Nat → Response) (cred1 : Creds) :
    ∀ (urls : List String) (i : Nat) (c : Creds),
      (orchRun respond cred1 i true c urls).countP (fun rec => rec.refreshedHere) = 0 := by
  intro urls
  induction urls with
  | nil => intro i c; simp [orchRun]
  | cons url rest ih =>
    intro i c
    have hbr : (blockedResp (respond i 0) && !true) = false := by simp
    rw [orchRun_cons_pass respond cred1 i url true c rest hbr, List.countP_cons]
    simp [ih (i + 1) c]

lemma orchRun_countP_le_one (respond : Nat → Nat → Response) (cred1 : Creds) :
    ∀ (urls : List String) (i : Nat) (r : Bool) (c : Creds),
      (orchRun respond cred1 i r c urls).countP (fun rec => rec.refreshedHere) ≤ 1 := by
  intro urls
  induction urls with
  | nil => intro i r c; simp [orchRun]
  | cons url rest ih =>
    intro i r c
    by_cases hbr : (blockedResp (respond i 0) && !r) = true
    · rw [orchRun_cons_blocked respond cred1 i url r c rest hbr, List.countP_cons]
      simp [orchRun_countP_refreshed respond cred1 rest (i + 1) cred1]
    · rw [Bool.not_eq_true] at hbr
      rw [orchRun_cons_pass respond cred1 i url r c rest hbr, List.countP_cons]
      simpa using ih (i + 1) r c

lemma orchRun_get_spec (respond : Nat → Nat → Response) (cred1 : Creds) :
    ∀ (urls : List String) (i : Nat) (r : Bool) (c : Creds) (k : Nat) (rec : TaskRecord),
      (orchRun respond cred1 i r c urls)[k]? = some rec →
      rec.firstResp = respond (i + k) 0
      ∧ rec.firstBlocked = blockedResp (respond (i + k) 0)
      ∧ (rec.refreshedHere = true ↔
          (r = false ∧ rec.firstBlocked = true
           ∧ ∀ (j : Nat) (rec2 : TaskRecord), j < k →
               (orchRun respond cred1 i r c urls)[j]? = some rec2 →
               rec2.firstBlocked = false)) := by
  intro urls
  induction urls with
  | nil => intro i r c k rec h; simp [orchRun] at h
  | cons url rest ih =>
    intro i r c k rec h
    by_cases hbr : (blockedResp (respond i 0) && !r) = true
    · obtain ⟨hbl, hr⟩ : blockedResp (respond i 0) = true ∧ r = false := by
        cases hb : blockedResp (respond i 0) <;> cases hrr : r <;>
          simp [hb, hrr] at hbr ⊢
      rw [orchRun_cons_blocked respond cred1 i url r c rest hbr] at h ⊢
      cases k with
      | zero =>
        rw [List.getElem?_cons_zero] at h
        obtain rfl := Option.some.inj h
        refine ⟨by simp, by simp, ?_⟩
        exact ⟨fun _ => ⟨hr, by simp [hbl], fun j rec2 hj _ => absurd hj (Nat.not_lt_zero j)⟩,
          fun _ => rfl⟩
      | succ k =>
        rw [List.getElem?_cons_succ] at h
        obtain ⟨ih1, ih2, ih3⟩ := ih (i + 1) true cred1 k rec h
        have hidx : (i + 1) + k = i + (k + 1) := by omega
        refine ⟨by rw [← hidx]; exact ih1, by rw [← hidx]; exact ih2, ?_⟩
        constructor
        · intro habs
          rcases ih3.mp habs with ⟨hfalse, _⟩
          exact absurd hfalse (by simp)
        · rintro ⟨_, _, hall⟩
          have h0 := hall 0 ⟨url, respond i 0, blockedResp (respond i 0), true,
            [⟨url, c.1, c.2⟩, ⟨url, cred1.1, cred1.2⟩], respond i 1⟩
            (Nat.succ_pos k) List.getElem?_cons_zero
          have hcontra : blockedResp (respond i 0) = false := by simpa using h0
          rw [hbl] at hcontra
          exact absurd hcontra (by simp)
    · rw [Bool.not_eq_true] at hbr
      rw [orchRun_cons_pass respond cred1 i url r c rest hbr] at h ⊢
      cases k with
      | zero =>
        rw [List.getElem?_cons_zero] at h
        obtain rfl := Option.some.inj h
        refine ⟨by simp, by simp, ?_⟩
        constructor
        · intro habs; simp at habs
        · rintro ⟨hr, hbl, _⟩
          subst hr
          have hb2 : blockedResp (respond i 0) = true := by simpa using hbl
          simp [hb2] at hbr
      | succ k =>
        rw [List.getElem?_cons_succ] at h
        obtain ⟨ih1, ih2, ih3⟩ := ih (i + 1) r c k rec h
        have hidx : (i + 1) + k = i + (k + 1) := by omega
        refine ⟨by rw [← hidx]; exact ih1, by rw [← hidx]; exact ih2, ?_⟩
        rw [ih3]
        constructor
        · rintro ⟨hr, hbl, hall⟩
          refine ⟨hr, hbl, ?_⟩
          intro j rec2 hj hsome
          cases j with
          | zero =>
            rw [List.getElem?_cons_zero] at hsome
            obtain rfl := Option.some.inj hsome
            subst hr
            simpa using hbr
          | succ j =>
            rw [List.getElem?_cons_succ] at hsome
            exact hall j rec2 (Nat.lt_of_succ_lt_succ hj) hsome
        · rintro ⟨hr, hbl, hall⟩
          refine ⟨hr, hbl, ?_⟩
          intro j rec2 hj hsome
          exact hall (j + 1) rec2 (Nat.succ_lt_succ hj)
            (by rw [List.getElem?_cons_succ]; exact hsome)

/-- Claim C1: over one fetch-loop run on the ordered task list, at most
one solver invocation is triggered by a blocked classification; a task
triggers the refresh exactly when it is the first task whose first
response is classified blocked, and that task alone is fetched a second
time (exactly one retry, with no re-classification and hence no second
refresh even if the retry is blocked); every other task, including any
later blocked task, issues a single fetch, triggers no solver invocation,
and its recorded final response is its first, still-blocked response. -/
theorem claim1_refresh_budget (respond : Nat → Nat → Response) (cred0 cred1 : Creds)
    (urls : List String) :
    (orchRun respond cred1 0 false cred0 urls).countP (fun rec => rec.refreshedHere) ≤ 1
    ∧ (∀ rec ∈ orchRun respond cred1 0 false cred0 urls,
        (rec.refreshedHere = true → rec.calls.length = 2)
        ∧ (rec.refreshedHere = false →
            rec.calls.length = 1 ∧ rec.finalResp = rec.firstResp))
    ∧ (∀ (k : Nat) (rec : TaskRecord),
        (orchRun respond cred1 0 false cred0 urls)[k]? = some rec →
        rec.firstBlocked = blockedResp (respond k 0)
        ∧ (rec.refreshedHere = true ↔
            (rec.firstBlocked = true
             ∧ ∀ (j : Nat) (rec2 : TaskRecord), j < k →
                 (orchRun respond cred1 0 false cred0 urls)[j]? = some rec2 →
                 rec2.firstBlocked = false))) := by
  refine ⟨orchRun_countP_le_one respond cred1 urls 0 false cred0,
    orchRun_rec_shape respond cred1 urls 0 false cred0, ?_⟩
  intro k rec h
  obtain ⟨_, h2, h3⟩ := orchRun_get_spec respond cred1 urls 0 false cred0 k rec h
  refine ⟨by simpa using h2, ?_⟩
  rw [h3]
  simp

/-- Witness for claim C1 at a concrete run of three tasks in which tasks
1 and 3 (indices 0 and 2) are blocked: the run performs at most one
refresh, the first blocked task is the one that refreshed (two calls),
and this is derived by applying the theorem at index 0. -/
theorem claim1_refresh_budget_witness :
    (orchRun
        (fun i a => if i == 0 && a == 0 then ⟨503, "x"⟩
          else if i == 2 && a == 0 then ⟨503, "x"⟩ else ⟨200, "x"⟩)
        (⟨"UA", "zh-CN,zh;q=0.9", ROOT_URL⟩, [("cf_clearance", "T")])
        0 false (⟨"UA", "zh-CN,zh;q=0.9", ROOT_URL⟩, [("cf_clearance", "T")])
        ["u1", "u2", "u3"]).countP (fun rec => rec.refreshedHere) ≤ 1
    ∧ ((⟨"u1", ⟨503, "x"⟩, true, true,
          [⟨"u1", ⟨"UA", "zh-CN,zh;q=0.9", ROOT_URL⟩, [("cf_clearance", "T")]⟩,
           ⟨"u1", ⟨"UA", "zh-CN,zh;q=0.9", ROOT_URL⟩, [("cf_clearance", "T")]⟩],
          ⟨200, "x"⟩⟩ : TaskRecord).refreshedHere = true
        ∧ (⟨"u1", ⟨503, "x"⟩, true, true,
          [⟨"u1", ⟨"UA", "zh-CN,zh;q=0.9", ROOT_URL⟩, [("cf_clearance", "T")]⟩,
           ⟨"u1", ⟨"UA", "zh-CN,zh;q=0.9", ROOT_URL⟩, [("cf_clearance", "T")]⟩],
          ⟨200, "x"⟩⟩ : TaskRecord).calls.length = 2) := by
  have hmain := claim1_refresh_budget
    (fun i a => if i == 0 && a == 0 then ⟨503, "x"⟩
      else if i == 2 && a == 0 then ⟨503, "x"⟩ else ⟨200, "x"⟩)
    (⟨"UA", "zh-CN,zh;q=0.9", ROOT_URL⟩, [("cf_clearance", "T")])
    (⟨"UA", "zh-CN,zh;q=0.9", ROOT_URL⟩, [("cf_clearance", "T")])
    ["u1", "u2", "u3"]
  refine ⟨hmain.1, ?_, ?_⟩
  · exact ((hmain.2.2 0 _ (by decide)).2).mpr
      ⟨by decide, fun j rec2 hj _ => absurd hj (Nat.not_lt_zero j)⟩
  · exact (hmain.2.1 _ (by decide)).1 (by decide)

lemma make_headers_pair (e : CfEntry) (u t : String)
    (hu : e.user_agent = some u) (hune : u.isEmpty = false)
    (ht : e.cf_clearance = some t) (htne : t.isEmpty = false) :
    make_headers_and_cookies e
      = .ok (⟨u, "zh-CN,zh;q=0.9", ROOT_URL⟩, [("cf_clearance", t)]) := by
  simp [make_headers_and_cookies, hu, ht, hune, htne]

lemma orchRun_calls_pair (respond : Nat → Nat → Response) (cred1 : Creds) (c0 : Creds) :
    ∀ (urls : List String) (i : Nat) (r : Bool) (c : Creds), (c = c0 ∨ c = cred1) →
      ∀ rec ∈ orchRun respond cred1 i r c urls, ∀ call ∈ rec.calls,
        (call.headers = c0.1 ∧ call.cookies = c0.2)
        ∨ (call.headers = cred1.1 ∧ call.cookies = cred1.2) := by
  intro urls
  induction urls with
  | nil => intro i r c _ rec h; simp [orchRun] at h
  | cons url rest ih =>
    intro i r c hc rec h
    by_cases hbr : (blockedResp (respond i 0) && !r) = true
    · rw [orchRun_cons_blocked respond cred1 i url r c rest hbr] at h
      rcases List.mem_cons.mp h with h0 | h1
      · subst h0
        intro call hcall
        rcases List.mem_cons.mp hcall with hc0 | hc1
        · subst hc0
          rcases hc with hcc | hcc <;> rw [hcc]
          · exact Or.inl ⟨rfl, rfl⟩
          · exact Or.inr ⟨rfl, rfl⟩
        · rcases List.mem_cons.mp hc1 with hc2 | hc2
          · subst hc2
            exact Or.inr ⟨rfl, rfl⟩
          · simp at hc2
      · exact ih (i + 1) true cred1 (Or.inr rfl) rec h1
    · rw [Bool.not_eq_true] at hbr
      rw [orchRun_cons_pass respond cred1 i url r c rest hbr] at h
      rcases List.mem_cons.mp h with h0 | h1
      · subst h0
        intro call hcall
        rcases List.mem_cons.mp hcall with hc0 | hc0
        · subst hc0
          rcases hc with hcc | hcc <;> rw [hcc]
          · exact Or.inl ⟨rfl, rfl⟩
          · exact Or.inr ⟨rfl, rfl⟩
        · simp at hc0
      · exact ih (i + 1) r c hc rec h1

/-- Claim C8: over every fetch of a run, the credential cookie and the
user-agent header attached to a request always form the exact pair
carried by one single token record (the one loaded before the run, or the
one loaded after the refresh), both components swapped together: no fetch
ever combines the credential of one record with the client identity of
the other. The hypotheses state that each of the two records carries a
non-empty user agent and a non-empty clearance value, and that the
credentials pairs are those built from the records by
make_headers_and_cookies. -/
theorem claim8_atomic_pair (respond : Nat → Nat → Response) (urls : List String)
    (e0 e1 : CfEntry) (u0 t0 u1 t1 : String) (cred0 cred1 : Creds)
    (hu0 : e0.user_agent = some u0) (hu0ne : u0.isEmpty = false)
    (ht0 : e0.cf_clearance = some t0) (ht0ne : t0.isEmpty = false)
    (hc0 : make_headers_and_cookies e0 = .ok cred0)
    (hu1 : e1.user_agent = some u1) (hu1ne : u1.isEmpty = false)
    (ht1 : e1.cf_clearance = some t1) (ht1ne : t1.isEmpty = false)
    (hc1 : make_headers_and_cookies e1 = .ok cred1) :
    ∀ rec ∈ orchRun respond cred1 0 false cred0 urls, ∀ call ∈ rec.calls,
      (call.headers.userAgent = u0 ∧ call.cookies = [("cf_clearance", t0)])
      ∨ (call.headers.userAgent = u1 ∧ call.cookies = [("cf_clearance", t1)]) := by
  have he0 : cred0 = (⟨u0, "zh-CN,zh;q=0.9", ROOT_URL⟩, [("cf_clearance", t0)]) := by
    have := (make_headers_pair e0 u0 t0 hu0 hu0ne ht0 ht0ne).symm.trans hc0
    simpa using this.symm
  have he1 : cred1 = (⟨u1, "zh-CN,zh;q=0.9", ROOT_URL⟩, [("cf_clearance", t1)]) := by
    have := (make_headers_pair e1 u1 t1 hu1 hu1ne ht1 ht1ne).symm.trans hc1
    simpa using this.symm
  intro rec hrec call hcall
  rcases orchRun_calls_pair respond cred1 cred0 urls 0 false cred0 (Or.inl rfl)
      rec hrec call hcall with ⟨hh, hck⟩ | ⟨hh, hck⟩
  · exact Or.inl ⟨by rw [hh, he0], by rw [hck, he0]⟩
  · exact Or.inr ⟨by rw [hh, he1], by rw [hck, he1]⟩

/-- Witness for claim C8: a one-task run with concrete records; the
single call carries the exact pair of the first record. -/
theorem claim8_atomic_pair_witness :
    ((ReqHeaders.userAgent (FetchCall.headers
        ⟨"u1", ⟨"UA0", "zh-CN,zh;q=0.9", ROOT_URL⟩, [("cf_clearance", "T0")]⟩) = "UA0"
      ∧ FetchCall.cookies
        ⟨"u1", ⟨"UA0", "zh-CN,zh;q=0.9", ROOT_URL⟩, [("cf_clearance", "T0")]⟩
        = [("cf_clearance", "T0")])
    ∨ (ReqHeaders.userAgent (FetchCall.headers
        ⟨"u1", ⟨"UA0", "zh-CN,zh;q=0.9", ROOT_URL⟩, [("cf_clearance", "T0")]⟩) = "UA1"
      ∧ FetchCall.cookies
        ⟨"u1", ⟨"UA0", "zh-CN,zh;q=0.9", ROOT_URL⟩, [("cf_clearance", "T0")]⟩
        = [("cf_clearance", "T1")])) := by
  have h := claim8_atomic_pair (fun _ _ => ⟨200, "x"⟩) ["u1"]
    ⟨[], some "UA0", some "T0", "e"⟩ ⟨[], some "UA1", some "T1", "e"⟩
    "UA0" "T0" "UA1" "T1"
    (⟨"UA0", "zh-CN,zh;q=0.9", ROOT_URL⟩, [("cf_clearance", "T0")])
    (⟨"UA1", "zh-CN,zh;q=0.9", ROOT_URL⟩, [("cf_clearance", "T1")])
    rfl rfl rfl rfl rfl rfl rfl rfl rfl rfl
  exact h
    ⟨"u1", ⟨200, "x"⟩, false, false,
      [⟨"u1", ⟨"UA0", "zh-CN,zh;q=0.9", ROOT_URL⟩, [("cf_clearance", "T0")]⟩], ⟨200, "x"⟩⟩
    (by decide)
    ⟨"u1", ⟨"UA0", "zh-CN,zh;q=0.9", ROOT_URL⟩, [("cf_clearance", "T0")]⟩
    (by decide)

/-- Claim C4 (code evidence): the fetch loop of bonghwa.main, whose try
statement at line 142 has no except or finally clause, gives a transport
error no per-task handling: in a two-task run whose first fetch raises a
connection or timeout error, the whole run aborts with that error and the
second task is never executed, while the same run with no transport error
completes both tasks. The source file itself is rejected by the Python
parser because of the missing handler (SyntaxError at line 181). -/
theorem claim4_network_error_aborts :
    orchRunRaises (fun i => if i == 0 then .error () else .ok ⟨200, "x"⟩) 0 ["u1", "u2"]
      = .error ()
    ∧ orchRunRaises (fun _ => .ok ⟨200, "x"⟩) 0 ["u1", "u2"]
      = .ok [⟨200, "x"⟩, ⟨200, "x"⟩] :=
  ⟨rfl, rfl⟩
